import Mathlib

set_option maxRecDepth 8000

/-!
Shallow embedding of the duckdb-data-eng pipeline (src/pipeline.py).

The pipeline is a sequence of DuckDB SQL statements over two raw CSV feeds.
We model each statement as a pure function over lists of rows.  SQL values of
type `T` that may be NULL are modelled as `Option T`; SQL boolean expressions
are modelled in three-valued logic as `Option Bool`; a `WHERE` clause keeps a
row iff its condition evaluates to `some true`.  `TRY_CAST` calls are DuckDB
builtins and are modelled as an explicit environment of fallible conversion
functions (`CastEnv`), with a simple concrete instance (`defaultEnv`) used to
evaluate the pipeline on concrete inputs.  `CURRENT_TIMESTAMP` /
`CURRENT_DATE` are ambient per-statement values and are passed explicitly.
-/

namespace Pipeline

/-! ## SQL three-valued logic primitives -/

/-- SQL `AND` in three-valued logic (NULL is `none`). -/
def sqlAnd : Option Bool → Option Bool → Option Bool
  | some false, _ => some false
  | _, some false => some false
  | some true, some true => some true
  | _, _ => none

/-- SQL `OR` in three-valued logic. -/
def sqlOr : Option Bool → Option Bool → Option Bool
  | some true, _ => some true
  | _, some true => some true
  | some false, some false => some false
  | _, _ => none

/-- SQL `NOT` in three-valued logic. -/
def sqlNot : Option Bool → Option Bool
  | none => none
  | some b => some (!b)

/-- SQL `IS NULL` (never NULL itself). -/
def sqlIsNull {α : Type} (x : Option α) : Option Bool := some x.isNone

/-- SQL `IS NOT NULL`. -/
def sqlIsNotNull {α : Type} (x : Option α) : Option Bool := some x.isSome

/-- SQL `=` on nullable values. -/
def sqlEq {α : Type} [DecidableEq α] : Option α → Option α → Option Bool
  | some a, some b => some (decide (a = b))
  | _, _ => none

/-- SQL `<>` on nullable values. -/
def sqlNe {α : Type} [DecidableEq α] (a b : Option α) : Option Bool := sqlNot (sqlEq a b)

/-- SQL `<` on nullable integers. -/
def sqlLtInt : Option Int → Option Int → Option Bool
  | some a, some b => some (decide (a < b))
  | _, _ => none

/-- SQL `<=` on nullable integers. -/
def sqlLeInt : Option Int → Option Int → Option Bool
  | some a, some b => some (decide (a ≤ b))
  | _, _ => none

/-- SQL `<` on nullable doubles (modelled as rationals). -/
def sqlLtRat : Option ℚ → Option ℚ → Option Bool
  | some a, some b => some (decide (a < b))
  | _, _ => none

/-- SQL `<=` on nullable doubles. -/
def sqlLeRat : Option ℚ → Option ℚ → Option Bool
  | some a, some b => some (decide (a ≤ b))
  | _, _ => none

/-- SQL `x IN (subquery)` under three-valued logic: `true` if a member equals
`x`, `false` if the set is empty or has no NULL and no match, NULL otherwise. -/
def sqlIn {α : Type} [DecidableEq α] (x : Option α) (s : List (Option α)) : Option Bool :=
  match x with
  | none => if s.isEmpty then some false else none
  | some v =>
    if some v ∈ s then some true
    else if none ∈ s then none
    else some false

/-- SQL `SUM(flag::INT)` over a column of nullable booleans: NULL inputs are
skipped; the sum over an empty or all-NULL column is NULL. -/
def sqlSumBool (l : List (Option Bool)) : Option Int :=
  if (l.filterMap id).isEmpty then none else some (((l.filterMap id).count true : Nat) : Int)

/-- SQL `x / y` on nullable doubles. -/
def sqlDivRat : Option ℚ → Option ℚ → Option ℚ
  | some a, some b => some (a / b)
  | _, _ => none

/-! ## String helpers (TRIM, LOWER, regexes) -/

/-- DuckDB `TRIM`: strip leading and trailing space characters. -/
def trimSpaces (s : String) : String :=
  ⟨((s.data.dropWhile (fun c => c == ' ')).reverse.dropWhile (fun c => c == ' ')).reverse⟩

/-- A regex `\s` whitespace character (RE2 class: space, tab, NL, VT, FF, CR). -/
def isWs (c : Char) : Bool :=
  decide (c.toNat = 32 ∨ c.toNat = 9 ∨ c.toNat = 10 ∨ c.toNat = 13 ∨ c.toNat = 11 ∨ c.toNat = 12)

/-- Remove the first maximal run of whitespace from a character list.  This is
the effect of DuckDB `REGEXP_REPLACE(s, pattern, replacement)` on the pattern
matching one-or-more whitespace characters: without the global option only the
first (leftmost, longest) match is replaced. -/
def stripFirstWsRun : List Char → List Char
  | [] => []
  | c :: cs => if isWs c then cs.dropWhile isWs else c :: stripFirstWsRun cs

/-- DuckDB `LOWER` (ASCII model). -/
def lowerString (s : String) : String := ⟨s.data.map Char.toLower⟩

/-- The `customer_email` expression of `cleaned_applications`:
`REGEXP_REPLACE(LOWER(customer_email), whitespace-run-pattern, empty)`. -/
def normalizeEmail (s : String) : String := ⟨stripFirstWsRun (lowerString s).data⟩

/-- Does a string contain any whitespace character? -/
def hasWs (s : String) : Bool := s.data.any isWs

/-- The regex used by `flag_postal_code_invalid`: exactly five ASCII digits. -/
def matchesFiveDigits (s : String) : Bool :=
  decide (s.data.length = 5) && s.data.all (fun c => c.isDigit)

/-- The regex used by `flag_application_id_invalid_format`: the letters APP
followed by one or more digits, anchored on both sides. -/
def matchesAppIdFormat (s : String) : Bool :=
  match s.data with
  | 'A' :: 'P' :: 'P' :: rest => (!rest.isEmpty) && rest.all (fun c => c.isDigit)
  | _ => false

/-! ## Dates and timestamps -/

/-- A SQL DATE value. -/
structure Date where
  year : Int
  month : Int
  day : Int
  deriving DecidableEq

/-- Strict ordering of dates. -/
def dateLt (a b : Date) : Bool :=
  decide (a.year < b.year) ||
    (decide (a.year = b.year) &&
      (decide (a.month < b.month) || (decide (a.month = b.month) && decide (a.day < b.day))))

/-- SQL `<` on nullable dates. -/
def sqlLtDate : Option Date → Option Date → Option Bool
  | some a, some b => some (dateLt a b)
  | _, _ => none

/-- SQL `>` on nullable dates. -/
def sqlGtDate (a b : Option Date) : Option Bool := sqlLtDate b a

/-- A rendered SQL timestamp: the instant (microseconds) together with the
time zone it was rendered into by `AT TIME ZONE`. -/
structure SqlTimestamp where
  instant : Int
  zone : String
  deriving DecidableEq

/-- `date_trunc(second-part, t)` on a microsecond instant. -/
def truncSecondMicros (t : Int) : Int := (t / 1000000) * 1000000

/-- The `processed_at` expression used by each CREATE TABLE statement:
`date_trunc(second-part, CURRENT_TIMESTAMP AT TIME ZONE Europe/Berlin)`,
where `t` is the statement transaction instant. -/
def mkProcessedAt (t : Int) : SqlTimestamp :=
  { instant := truncSecondMicros t, zone := "Europe/Berlin" }

/-- DuckDB `date_diff(month-part, d, t)`: the number of month boundaries
crossed between the two dates. -/
def dateDiffMonth (d t : Date) : Int := 12 * (t.year - d.year) + (t.month - d.month)

/-! ## Cast environment (DuckDB TRY_CAST builtins) -/

/-- The fallible conversions used by the `TRY_CAST` calls; DuckDB builtins,
abstracted as an environment.  All pipeline theorems hold for every
environment. -/
structure CastEnv where
  castDouble : String → Option ℚ
  castInt : String → Option Int
  castDate : String → Option Date

/-- Parse a non-empty all-digit character list. -/
def parseDigits (l : List Char) : Option Nat :=
  if l.isEmpty then none
  else if l.all (fun c => c.isDigit) then
    some (l.foldl (fun acc c => acc * 10 + (c.toNat - 48)) 0)
  else none

/-- Parse an optionally negated decimal integer. -/
def parseIntString (s : String) : Option Int :=
  match s.data with
  | '-' :: rest => (parseDigits rest).map (fun n => -(n : Int))
  | l => (parseDigits l).map (fun n => (n : Int))

/-- Split a character list on the dash character. -/
def splitDashes : List Char → List (List Char)
  | [] => [[]]
  | c :: cs =>
    let r := splitDashes cs
    if c == '-' then [] :: r
    else
      match r with
      | [] => [[c]]
      | x :: xs => (c :: x) :: xs

/-- Parse an ISO `YYYY-MM-DD` date string. -/
def parseDateString (s : String) : Option Date :=
  match splitDashes s.data with
  | [y, m, d] =>
    match parseDigits y, parseDigits m, parseDigits d with
    | some yn, some mn, some dn =>
      if 1 ≤ mn ∧ mn ≤ 12 ∧ 1 ≤ dn ∧ dn ≤ 31 then
        some { year := (yn : Int), month := (mn : Int), day := (dn : Int) }
      else none
    | _, _, _ => none
  | _ => none

/-- A simple concrete cast environment, used to evaluate the pipeline on
concrete inputs. -/
def defaultEnv : CastEnv :=
  { castDouble := fun s => (parseIntString s).map (fun i => (i : ℚ)),
    castInt := parseIntString,
    castDate := parseDateString }

/-! ## Raw applications, quarantine classifier -/

/-- A row of `raw_applications` as loaded with `all_varchar` and
`null_padding`: 12 named columns plus the overflow column `column12`. -/
structure RawAppRow where
  application_id : Option String
  customer_email : Option String
  installer_partner_id : Option String
  installation_type : Option String
  system_size_kwp : Option String
  loan_amount_eur : Option String
  loan_term_months : Option String
  application_date : Option String
  credit_score : Option String
  annual_income_eur : Option String
  postal_code : Option String
  status : Option String
  column12 : Option String
  deriving DecidableEq

/-- The WHERE clause of `raw_applications_bad`:
`column12 IS NOT NULL AND TRIM(column12) <> empty-string`. -/
def quarantineCond (c12 : Option String) : Option Bool :=
  sqlAnd (sqlIsNotNull c12) (sqlNe (c12.map trimSpaces) (some ""))

/-- The WHERE clause of `raw_applications_good`:
`column12 IS NULL OR TRIM(column12) = empty-string`. -/
def goodCond (c12 : Option String) : Option Bool :=
  sqlOr (sqlIsNull c12) (sqlEq (c12.map trimSpaces) (some ""))

/-- `CREATE TABLE raw_applications_bad AS SELECT * FROM raw_applications WHERE ...`. -/
def raw_applications_bad (rows : List RawAppRow) : List RawAppRow :=
  rows.filter (fun r => decide (quarantineCond r.column12 = some true))

/-- A good application row: exactly the 12 named fields, overflow dropped. -/
structure GoodAppRow where
  application_id : Option String
  customer_email : Option String
  installer_partner_id : Option String
  installation_type : Option String
  system_size_kwp : Option String
  loan_amount_eur : Option String
  loan_term_months : Option String
  application_date : Option String
  credit_score : Option String
  annual_income_eur : Option String
  postal_code : Option String
  status : Option String
  deriving DecidableEq

/-- The projection in `raw_applications_good`: keep the 12 named columns. -/
def projectGood (r : RawAppRow) : GoodAppRow :=
  { application_id := r.application_id,
    customer_email := r.customer_email,
    installer_partner_id := r.installer_partner_id,
    installation_type := r.installation_type,
    system_size_kwp := r.system_size_kwp,
    loan_amount_eur := r.loan_amount_eur,
    loan_term_months := r.loan_term_months,
    application_date := r.application_date,
    credit_score := r.credit_score,
    annual_income_eur := r.annual_income_eur,
    postal_code := r.postal_code,
    status := r.status }

/-- `CREATE TABLE raw_applications_good AS SELECT (12 columns) FROM
raw_applications WHERE column12 IS NULL OR TRIM(column12) = empty-string`. -/
def raw_applications_good (rows : List RawAppRow) : List GoodAppRow :=
  (rows.filter (fun r => decide (goodCond r.column12 = some true))).map projectGood

/-! ## Application duplicate detection and validation -/

/-- `CREATE TABLE app_dupes AS SELECT application_id, COUNT(*) FROM
raw_applications_good GROUP BY 1 HAVING COUNT(*) > 1` (the key column only;
SQL GROUP BY puts all NULL keys into one group). -/
def app_dupes (good : List GoodAppRow) : List (Option String) :=
  let ids := good.map (fun g => g.application_id)
  ids.dedup.filter (fun k => decide (1 < ids.count k))

/-- The `typed` CTE row of `cleaned_applications`. -/
structure TypedAppRow where
  application_id : Option String
  customer_email : Option String
  installer_partner_id : Option String
  installation_type : Option String
  system_size_kwp : Option ℚ
  loan_amount_eur : Option ℚ
  loan_term_months : Option Int
  application_date : Option Date
  credit_score : Option Int
  annual_income_eur : Option ℚ
  postal_code : Option String
  status : Option String
  deriving DecidableEq

/-- The `typed` CTE of `cleaned_applications`: email normalization, status
lowercasing, and the TRY_CASTs. -/
def typeAppRow (env : CastEnv) (g : GoodAppRow) : TypedAppRow :=
  { application_id := g.application_id,
    customer_email := g.customer_email.map normalizeEmail,
    installer_partner_id := g.installer_partner_id,
    installation_type := g.installation_type,
    system_size_kwp := g.system_size_kwp.bind env.castDouble,
    loan_amount_eur := g.loan_amount_eur.bind env.castDouble,
    loan_term_months := g.loan_term_months.bind env.castInt,
    application_date := g.application_date.bind env.castDate,
    credit_score := g.credit_score.bind env.castInt,
    annual_income_eur := g.annual_income_eur.bind env.castDouble,
    postal_code := g.postal_code,
    status := g.status.map lowerString }

/-- The `risk_category` CASE expression of `cleaned_applications`. -/
def riskCategory : Option Int → String
  | none => "Unknown"
  | some c =>
    if c < 300 ∨ 850 < c then "Invalid"
    else if 750 ≤ c then "Excellent"
    else if 700 ≤ c ∧ c ≤ 749 then "Good"
    else if 650 ≤ c ∧ c ≤ 699 then "Fair"
    else "Poor"

/-- A row of `cleaned_applications`: the typed columns, the nine flags, the
derived fields, the JSON flag mapping and the processing timestamp. -/
structure CleanedAppRow where
  typed : TypedAppRow
  flag_application_id_null : Option Bool
  flag_application_id_duplicate : Option Bool
  flag_loan_amount_non_positive : Option Bool
  flag_credit_score_missing : Option Bool
  flag_credit_score_out_of_range : Option Bool
  flag_postal_code_invalid : Option Bool
  flag_installation_type_invalid : Option Bool
  flag_system_size_invalid : Option Bool
  flag_system_size_present_for_heat_pump : Option Bool
  risk_category : String
  loan_to_income : Option ℚ
  data_quality_flags : List (String × Option Bool)
  processed_at : SqlTimestamp
  deriving DecidableEq

/-- Build one `cleaned_applications` row from a typed row, given the
`app_dupes` key set and the statement timestamp. -/
def cleanAppRow (dupes : List (Option String)) (ts : Int) (t : TypedAppRow) : CleanedAppRow :=
  let f1 := sqlOr (sqlIsNull t.application_id) (sqlEq (t.application_id.map trimSpaces) (some ""))
  let f2 := sqlIn t.application_id dupes
  let f3 := sqlOr (sqlIsNull t.loan_amount_eur) (sqlLeRat t.loan_amount_eur (some 0))
  let f4 := sqlIsNull t.credit_score
  let f5 := sqlAnd (sqlIsNotNull t.credit_score)
      (sqlOr (sqlLtInt t.credit_score (some 300)) (sqlLtInt (some 850) t.credit_score))
  let f6 := sqlOr (sqlIsNull t.postal_code) (sqlNot (t.postal_code.map matchesFiveDigits))
  let f7 := sqlOr (sqlIsNull t.installation_type)
      (sqlNot (sqlIn t.installation_type [some "solar_pv", some "solar_battery", some "heat_pump"]))
  let f8 := sqlAnd (sqlIn t.installation_type [some "solar_pv", some "solar_battery"])
      (sqlOr (sqlIsNull t.system_size_kwp) (sqlLeRat t.system_size_kwp (some 0)))
  let f9 := sqlAnd (sqlEq t.installation_type (some "heat_pump")) (sqlIsNotNull t.system_size_kwp)
  let lti :=
    match sqlOr (sqlOr (sqlIsNull t.annual_income_eur) (sqlLeRat t.annual_income_eur (some 0))) f3 with
    | some true => none
    | _ => sqlDivRat t.loan_amount_eur t.annual_income_eur
  { typed := t,
    flag_application_id_null := f1,
    flag_application_id_duplicate := f2,
    flag_loan_amount_non_positive := f3,
    flag_credit_score_missing := f4,
    flag_credit_score_out_of_range := f5,
    flag_postal_code_invalid := f6,
    flag_installation_type_invalid := f7,
    flag_system_size_invalid := f8,
    flag_system_size_present_for_heat_pump := f9,
    risk_category := riskCategory t.credit_score,
    loan_to_income := lti,
    data_quality_flags :=
      [("application_id_null", f1),
       ("application_id_duplicate", f2),
       ("loan_amount_non_positive", f3),
       ("credit_score_missing", f4),
       ("credit_score_out_of_range", f5),
       ("postal_code_invalid", f6),
       ("installation_type_invalid", f7),
       ("system_size_invalid", f8),
       ("system_size_present_for_heat_pump", f9)],
    processed_at := mkProcessedAt ts }

/-- `CREATE TABLE cleaned_applications AS ...` where `ts` is the statement
transaction instant feeding `CURRENT_TIMESTAMP`. -/
def cleaned_applications (env : CastEnv) (rows : List RawAppRow) (ts : Int) :
    List CleanedAppRow :=
  let good := raw_applications_good rows
  let dupes := app_dupes good
  (good.map (typeAppRow env)).map (cleanAppRow dupes ts)

/-! ## Raw LMS feed and LMS validator -/

/-- A row of `raw_lms` as loaded with `all_varchar`. -/
structure RawLmsRow where
  loan_id : Option String
  application_id : Option String
  disbursement_date : Option String
  current_balance_eur : Option String
  days_past_due : Option String
  payment_status : Option String
  last_payment_date : Option String
  next_payment_due : Option String
  deriving DecidableEq

/-- `CREATE TABLE lms_loan_id_dupes AS SELECT loan_id FROM raw_lms WHERE
loan_id IS NOT NULL AND TRIM(loan_id) <> empty-string GROUP BY 1 HAVING
COUNT(*) > 1`. -/
def lms_loan_id_dupes (rows : List RawLmsRow) : List String :=
  let ids := rows.filterMap (fun r =>
    match r.loan_id with
    | some s => if trimSpaces s = "" then none else some s
    | none => none)
  ids.dedup.filter (fun k => decide (1 < ids.count k))

/-- `CREATE TABLE lms_app_id_dupes` analogously on `application_id`. -/
def lms_app_id_dupes (rows : List RawLmsRow) : List String :=
  let ids := rows.filterMap (fun r =>
    match r.application_id with
    | some s => if trimSpaces s = "" then none else some s
    | none => none)
  ids.dedup.filter (fun k => decide (1 < ids.count k))

/-- The `lms_typed` CTE row of `lms_cleaned`. -/
structure TypedLmsRow where
  loan_id : Option String
  application_id : Option String
  disbursement_date : Option Date
  current_balance_eur : Option ℚ
  days_past_due : Option Int
  payment_status : Option String
  last_payment_date : Option Date
  next_payment_due : Option Date
  deriving DecidableEq

/-- The `lms_typed` CTE of `lms_cleaned`. -/
def typeLmsRow (env : CastEnv) (r : RawLmsRow) : TypedLmsRow :=
  { loan_id := r.loan_id,
    application_id := r.application_id,
    disbursement_date := r.disbursement_date.bind env.castDate,
    current_balance_eur := r.current_balance_eur.bind env.castDouble,
    days_past_due := r.days_past_due.bind env.castInt,
    payment_status := r.payment_status.map lowerString,
    last_payment_date := r.last_payment_date.bind env.castDate,
    next_payment_due := r.next_payment_due.bind env.castDate }

/-- The `delinquency_bucket` CASE expression of `lms_cleaned`. -/
def delinquencyBucketLms : Option Int → Option String
  | none => none
  | some n =>
    if n = 0 then some "Current"
    else if 1 ≤ n ∧ n ≤ 30 then some "Late"
    else if 31 ≤ n ∧ n ≤ 90 then some "Delinquent"
    else some "Default"

/-- A row of `lms_cleaned`. -/
structure CleanedLmsRow where
  typed : TypedLmsRow
  flag_loan_id_null : Option Bool
  flag_application_id_null : Option Bool
  flag_application_id_invalid_format : Option Bool
  flag_loan_id_duplicate : Option Bool
  flag_application_id_duplicate : Option Bool
  flag_current_balance_negative : Option Bool
  flag_days_past_due_negative : Option Bool
  flag_last_payment_before_disbursement : Option Bool
  flag_next_due_before_disbursement : Option Bool
  flag_last_payment_after_next_due : Option Bool
  delinquency_bucket : Option String
  data_quality_flags : List (String × Option Bool)
  processed_at : SqlTimestamp
  deriving DecidableEq

/-- Build one `lms_cleaned` row from a typed row and the two duplicate key
sets. -/
def cleanLmsRow (loanDupes appDupes : List String) (ts : Int) (t : TypedLmsRow) :
    CleanedLmsRow :=
  let f1 := sqlOr (sqlIsNull t.loan_id) (sqlEq (t.loan_id.map trimSpaces) (some ""))
  let f2 := sqlOr (sqlIsNull t.application_id) (sqlEq (t.application_id.map trimSpaces) (some ""))
  let f3 := sqlAnd (sqlIsNotNull t.application_id)
      (sqlNot (t.application_id.map matchesAppIdFormat))
  let f4 := sqlIn t.loan_id (loanDupes.map some)
  let f5 := sqlIn t.application_id (appDupes.map some)
  let f6 := sqlAnd (sqlIsNotNull t.current_balance_eur) (sqlLtRat t.current_balance_eur (some 0))
  let f7 := sqlAnd (sqlIsNotNull t.days_past_due) (sqlLtInt t.days_past_due (some 0))
  let f8 := sqlAnd (sqlAnd (sqlIsNotNull t.last_payment_date) (sqlIsNotNull t.disbursement_date))
      (sqlLtDate t.last_payment_date t.disbursement_date)
  let f9 := sqlAnd (sqlAnd (sqlIsNotNull t.next_payment_due) (sqlIsNotNull t.disbursement_date))
      (sqlLtDate t.next_payment_due t.disbursement_date)
  let f10 := sqlAnd (sqlAnd (sqlIsNotNull t.last_payment_date) (sqlIsNotNull t.next_payment_due))
      (sqlGtDate t.last_payment_date t.next_payment_due)
  { typed := t,
    flag_loan_id_null := f1,
    flag_application_id_null := f2,
    flag_application_id_invalid_format := f3,
    flag_loan_id_duplicate := f4,
    flag_application_id_duplicate := f5,
    flag_current_balance_negative := f6,
    flag_days_past_due_negative := f7,
    flag_last_payment_before_disbursement := f8,
    flag_next_due_before_disbursement := f9,
    flag_last_payment_after_next_due := f10,
    delinquency_bucket := delinquencyBucketLms t.days_past_due,
    data_quality_flags :=
      [("loan_id_null", f1),
       ("application_id_null", f2),
       ("application_id_invalid_format", f3),
       ("loan_id_duplicate", f4),
       ("application_id_duplicate", f5),
       ("current_balance_negative", f6),
       ("days_past_due_negative", f7),
       ("last_payment_before_disbursement", f8),
       ("next_due_before_disbursement", f9),
       ("last_payment_after_next_due", f10)],
    processed_at := mkProcessedAt ts }

/-- `CREATE TABLE lms_cleaned AS ...`, `ts` being the statement transaction
instant. -/
def lms_cleaned (env : CastEnv) (rows : List RawLmsRow) (ts : Int) : List CleanedLmsRow :=
  let ld := lms_loan_id_dupes rows
  let ad := lms_app_id_dupes rows
  (rows.map (typeLmsRow env)).map (cleanLmsRow ld ad ts)

/-- `CREATE TABLE approved_applications AS SELECT application_id FROM
cleaned_applications WHERE status = approved` (built by the code but never
consulted by the join). -/
def approved_applications (apps : List CleanedAppRow) : List (Option String) :=
  (apps.filter (fun a => decide (sqlEq a.typed.status (some "approved") = some true))).map
    (fun a => a.typed.application_id)

/-! ## Portfolio joiner -/

/-- The portfolio-level `delinquency_bucket` CASE expression (recomputed from
the joined `days_past_due`; a separate SQL expression from the one in
`lms_cleaned`). -/
def delinquencyBucketPortfolio : Option Int → Option String
  | none => none
  | some n =>
    if n = 0 then some "Current"
    else if 1 ≤ n ∧ n ≤ 30 then some "Late"
    else if 31 ≤ n ∧ n ≤ 90 then some "Delinquent"
    else some "Default"

/-- The `months_since_disbursement` CASE expression: NULL when undisbursed,
else `date_diff(month-part, disbursement_date, CURRENT_DATE)`. -/
def monthsSinceDisbursement (dd : Option Date) (today : Date) : Option Int :=
  match dd with
  | none => none
  | some d => some (dateDiffMonth d today)

/-- A row of `loan_portfolio`: all application columns plus the (possibly
NULL) LMS columns, the LMS flags the SELECT carries over, and the recomputed
derived fields. -/
structure PortfolioRow where
  app : CleanedAppRow
  loan_id : Option String
  lms_application_id : Option String
  disbursement_date : Option Date
  current_balance_eur : Option ℚ
  days_past_due : Option Int
  payment_status : Option String
  last_payment_date : Option Date
  next_payment_due : Option Date
  flag_loan_id_null : Option Bool
  flag_application_id_null : Option Bool
  flag_application_id_invalid_format : Option Bool
  flag_current_balance_negative : Option Bool
  flag_days_past_due_negative : Option Bool
  flag_last_payment_before_disbursement : Option Bool
  flag_next_due_before_disbursement : Option Bool
  flag_last_payment_after_next_due : Option Bool
  lms_data_quality_flags : Option (List (String × Option Bool))
  lms_processed_at : Option SqlTimestamp
  delinquency_bucket : Option String
  months_since_disbursement : Option Int
  deriving DecidableEq

/-- Build one `loan_portfolio` row from an application row and its (possibly
absent) matched LMS row; all LMS-side columns are NULL when unmatched. -/
def portfolioRow (today : Date) (a : CleanedAppRow) : Option CleanedLmsRow → PortfolioRow
  | none =>
    { app := a,
      loan_id := none,
      lms_application_id := none,
      disbursement_date := none,
      current_balance_eur := none,
      days_past_due := none,
      payment_status := none,
      last_payment_date := none,
      next_payment_due := none,
      flag_loan_id_null := none,
      flag_application_id_null := none,
      flag_application_id_invalid_format := none,
      flag_current_balance_negative := none,
      flag_days_past_due_negative := none,
      flag_last_payment_before_disbursement := none,
      flag_next_due_before_disbursement := none,
      flag_last_payment_after_next_due := none,
      lms_data_quality_flags := none,
      lms_processed_at := none,
      delinquency_bucket := delinquencyBucketPortfolio none,
      months_since_disbursement := monthsSinceDisbursement none today }
  | some l =>
    { app := a,
      loan_id := l.typed.loan_id,
      lms_application_id := l.typed.application_id,
      disbursement_date := l.typed.disbursement_date,
      current_balance_eur := l.typed.current_balance_eur,
      days_past_due := l.typed.days_past_due,
      payment_status := l.typed.payment_status,
      last_payment_date := l.typed.last_payment_date,
      next_payment_due := l.typed.next_payment_due,
      flag_loan_id_null := l.flag_loan_id_null,
      flag_application_id_null := l.flag_application_id_null,
      flag_application_id_invalid_format := l.flag_application_id_invalid_format,
      flag_current_balance_negative := l.flag_current_balance_negative,
      flag_days_past_due_negative := l.flag_days_past_due_negative,
      flag_last_payment_before_disbursement := l.flag_last_payment_before_disbursement,
      flag_next_due_before_disbursement := l.flag_next_due_before_disbursement,
      flag_last_payment_after_next_due := l.flag_last_payment_after_next_due,
      lms_data_quality_flags := some l.data_quality_flags,
      lms_processed_at := some l.processed_at,
      delinquency_bucket := delinquencyBucketPortfolio l.typed.days_past_due,
      months_since_disbursement := monthsSinceDisbursement l.typed.disbursement_date today }

/-- The LMS rows matching one application under the join condition
`a.application_id = l.application_id` (SQL equality: NULL never matches). -/
def lmsMatches (lms : List CleanedLmsRow) (a : CleanedAppRow) : List CleanedLmsRow :=
  lms.filter (fun l => decide (sqlEq a.typed.application_id l.typed.application_id = some true))

/-- The portfolio rows generated by one application row of the left join:
one NULL-padded row when unmatched, one row per match otherwise. -/
def joinRowsFor (lms : List CleanedLmsRow) (today : Date) (a : CleanedAppRow) :
    List PortfolioRow :=
  match lmsMatches lms a with
  | [] => [portfolioRow today a none]
  | ms => ms.map (fun l => portfolioRow today a (some l))

/-- `CREATE TABLE loan_portfolio AS SELECT ... FROM cleaned_applications a
LEFT JOIN lms_cleaned l ON a.application_id = l.application_id`. -/
def loan_portfolio (env : CastEnv) (rows : List RawAppRow) (lmsRows : List RawLmsRow)
    (tsA tsL : Int) (today : Date) : List PortfolioRow :=
  let apps := cleaned_applications env rows tsA
  let lms := lms_cleaned env lmsRows tsL
  apps.flatMap (joinRowsFor lms today)

/-! ## Quality reporter -/

/-- The WHERE or-chain over the nine application flags (left associated, as
parsed by SQL). -/
def appAnyFlag (r : CleanedAppRow) : Option Bool :=
  sqlOr (sqlOr (sqlOr (sqlOr (sqlOr (sqlOr (sqlOr (sqlOr
    r.flag_application_id_null
    r.flag_application_id_duplicate)
    r.flag_loan_amount_non_positive)
    r.flag_credit_score_missing)
    r.flag_credit_score_out_of_range)
    r.flag_postal_code_invalid)
    r.flag_installation_type_invalid)
    r.flag_system_size_invalid)
    r.flag_system_size_present_for_heat_pump

/-- The WHERE or-chain over the ten LMS flags. -/
def lmsAnyFlag (r : CleanedLmsRow) : Option Bool :=
  sqlOr (sqlOr (sqlOr (sqlOr (sqlOr (sqlOr (sqlOr (sqlOr (sqlOr
    r.flag_loan_id_null
    r.flag_application_id_null)
    r.flag_application_id_invalid_format)
    r.flag_loan_id_duplicate)
    r.flag_application_id_duplicate)
    r.flag_current_balance_negative)
    r.flag_days_past_due_negative)
    r.flag_last_payment_before_disbursement)
    r.flag_next_due_before_disbursement)
    r.flag_last_payment_after_next_due

/-- Code-point comparison of character lists (ORDER BY on VARCHAR). -/
def lexLeChars : List Char → List Char → Bool
  | [], _ => true
  | _ :: _, [] => false
  | a :: as, b :: bs =>
    if a.toNat < b.toNat then true
    else if b.toNat < a.toNat then false
    else lexLeChars as bs

/-- `ORDER BY application_id` comparison on nullable strings: ascending,
NULLS LAST (the DuckDB default null ordering). -/
def optStrLe (a b : Option String) : Bool :=
  match a, b with
  | none, none => true
  | none, some _ => false
  | some _, none => true
  | some x, some y => lexLeChars x.data y.data

/-- The ordering relation used to state sortedness of the id list. -/
def idOrder (a b : Option String) : Prop := optStrLe a b = true

instance : DecidableRel idOrder := fun a b => instDecidableEqBool (optStrLe a b) true

/-- The sort performed by `array_agg(application_id ORDER BY application_id)`. -/
def sortIds (l : List (Option String)) : List (Option String) := List.insertionSort idOrder l

/-- The `problematic_ids` CTE: `SELECT DISTINCT application_id FROM
cleaned_applications WHERE (flag or-chain) UNION SELECT DISTINCT
application_id FROM lms_cleaned WHERE (flag or-chain)` (UNION deduplicates,
treating NULL keys as equal). -/
def problematic_ids (apps : List CleanedAppRow) (lms : List CleanedLmsRow) :
    List (Option String) :=
  (((apps.filter (fun r => decide (appAnyFlag r = some true))).map
      (fun r => r.typed.application_id)).dedup ++
    ((lms.filter (fun r => decide (lmsAnyFlag r = some true))).map
      (fun r => r.typed.application_id)).dedup).dedup

/-- The single `data_quality_report` row. -/
structure QualityReport where
  applications_processed : Nat
  quarantined_applications : Nat
  lms_processed : Nat
  app_application_id_null : Option Int
  app_application_id_duplicate : Option Int
  app_loan_amount_non_positive : Option Int
  app_credit_score_missing : Option Int
  app_credit_score_out_of_range : Option Int
  app_postal_code_invalid : Option Int
  app_installation_type_invalid : Option Int
  app_system_size_invalid : Option Int
  app_system_size_present_for_heat_pump : Option Int
  lms_loan_id_null : Option Int
  lms_application_id_null : Option Int
  lms_application_id_invalid_format : Option Int
  lms_loan_id_duplicate : Option Int
  lms_application_id_duplicate : Option Int
  lms_current_balance_negative : Option Int
  lms_days_past_due_negative : Option Int
  lms_last_payment_before_disbursement : Option Int
  lms_next_due_before_disbursement : Option Int
  lms_last_payment_after_next_due : Option Int
  problematic_application_ids : Option (List (Option String))
  processed_at : SqlTimestamp
  deriving DecidableEq

/-- `CREATE TABLE data_quality_report AS ...`: COUNT and SUM aggregates over
the cleaned tables and the quarantine table, plus the aggregated sorted id
list (`array_agg` over zero rows is NULL). -/
def data_quality_report (env : CastEnv) (rows : List RawAppRow) (lmsRows : List RawLmsRow)
    (tsA tsL tsR : Int) : QualityReport :=
  let apps := cleaned_applications env rows tsA
  let lms := lms_cleaned env lmsRows tsL
  let prob := problematic_ids apps lms
  { applications_processed := apps.length,
    quarantined_applications := (raw_applications_bad rows).length,
    lms_processed := lms.length,
    app_application_id_null := sqlSumBool (apps.map (fun r => r.flag_application_id_null)),
    app_application_id_duplicate :=
      sqlSumBool (apps.map (fun r => r.flag_application_id_duplicate)),
    app_loan_amount_non_positive :=
      sqlSumBool (apps.map (fun r => r.flag_loan_amount_non_positive)),
    app_credit_score_missing := sqlSumBool (apps.map (fun r => r.flag_credit_score_missing)),
    app_credit_score_out_of_range :=
      sqlSumBool (apps.map (fun r => r.flag_credit_score_out_of_range)),
    app_postal_code_invalid := sqlSumBool (apps.map (fun r => r.flag_postal_code_invalid)),
    app_installation_type_invalid :=
      sqlSumBool (apps.map (fun r => r.flag_installation_type_invalid)),
    app_system_size_invalid := sqlSumBool (apps.map (fun r => r.flag_system_size_invalid)),
    app_system_size_present_for_heat_pump :=
      sqlSumBool (apps.map (fun r => r.flag_system_size_present_for_heat_pump)),
    lms_loan_id_null := sqlSumBool (lms.map (fun r => r.flag_loan_id_null)),
    lms_application_id_null := sqlSumBool (lms.map (fun r => r.flag_application_id_null)),
    lms_application_id_invalid_format :=
      sqlSumBool (lms.map (fun r => r.flag_application_id_invalid_format)),
    lms_loan_id_duplicate := sqlSumBool (lms.map (fun r => r.flag_loan_id_duplicate)),
    lms_application_id_duplicate :=
      sqlSumBool (lms.map (fun r => r.flag_application_id_duplicate)),
    lms_current_balance_negative :=
      sqlSumBool (lms.map (fun r => r.flag_current_balance_negative)),
    lms_days_past_due_negative := sqlSumBool (lms.map (fun r => r.flag_days_past_due_negative)),
    lms_last_payment_before_disbursement :=
      sqlSumBool (lms.map (fun r => r.flag_last_payment_before_disbursement)),
    lms_next_due_before_disbursement :=
      sqlSumBool (lms.map (fun r => r.flag_next_due_before_disbursement)),
    lms_last_payment_after_next_due :=
      sqlSumBool (lms.map (fun r => r.flag_last_payment_after_next_due)),
    problematic_application_ids := if prob.isEmpty then none else some (sortIds prob),
    processed_at := mkProcessedAt tsR }

/-! ## Spec-side definitions (wordings of the specification) -/

/-- Spec wording of the quarantine rule: the trailing overflow column is
non-null and non-blank after trimming. -/
def specQuarantine (r : RawAppRow) : Prop :=
  ∃ s, r.column12 = some s ∧ trimSpaces s ≠ ""

/-- The multiset of application ids over the good-row set. -/
def goodIds (rows : List RawAppRow) : List (Option String) :=
  (raw_applications_good rows).map (fun g => g.application_id)

/-- Spec wording of a report counter being correct: the number of rows of the
cleaned table on which the flag is true. -/
def flagTrueCount {α : Type} (table : List α) (fl : α → Option Bool) : Nat :=
  (table.filter (fun r => decide (fl r = some true))).length

/-- Spec wording: a cleaned application row has at least one true flag. -/
def appHasTrueFlag (r : CleanedAppRow) : Prop :=
  r.flag_application_id_null = some true ∨
  r.flag_application_id_duplicate = some true ∨
  r.flag_loan_amount_non_positive = some true ∨
  r.flag_credit_score_missing = some true ∨
  r.flag_credit_score_out_of_range = some true ∨
  r.flag_postal_code_invalid = some true ∨
  r.flag_installation_type_invalid = some true ∨
  r.flag_system_size_invalid = some true ∨
  r.flag_system_size_present_for_heat_pump = some true

/-- Spec wording: a cleaned LMS row has at least one true flag. -/
def lmsHasTrueFlag (r : CleanedLmsRow) : Prop :=
  r.flag_loan_id_null = some true ∨
  r.flag_application_id_null = some true ∨
  r.flag_application_id_invalid_format = some true ∨
  r.flag_loan_id_duplicate = some true ∨
  r.flag_application_id_duplicate = some true ∨
  r.flag_current_balance_negative = some true ∨
  r.flag_days_past_due_negative = some true ∨
  r.flag_last_payment_before_disbursement = some true ∨
  r.flag_next_due_before_disbursement = some true ∨
  r.flag_last_payment_after_next_due = some true

/-- Spec wording of the months computation the claim asks for: the number of
complete months elapsed from `d` to `t` (for `d` at or before `t`), as
opposed to the number of month boundaries crossed. -/
def wholeMonthSpan (d t : Date) : Int :=
  12 * (t.year - d.year) + (t.month - d.month) - (if t.day < d.day then 1 else 0)

/-! ## Helper lemmas about the SQL primitives -/

theorem sqlOr_eq_true_iff :
    ∀ a b : Option Bool, sqlOr a b = some true ↔ (a = some true ∨ b = some true) := by
  decide

theorem sqlAnd_eq_true_iff :
    ∀ a b : Option Bool, sqlAnd a b = some true ↔ (a = some true ∧ b = some true) := by
  decide

theorem length_filter_add_length_filter_not {α : Type} (l : List α) (p : α → Bool) :
    (l.filter p).length + (l.filter (fun a => !(p a))).length = l.length := by
  induction l with
  | nil => simp
  | cons a t ih =>
    by_cases h : p a <;> simp [List.filter_cons, h] <;> omega

/-! ## Quarantine facts (claim C1) -/

theorem quarantine_good_compl (c12 : Option String) :
    quarantineCond c12 = some true ↔ ¬ goodCond c12 = some true := by
  cases c12 with
  | none =>
    simp [quarantineCond, goodCond, sqlAnd, sqlOr, sqlNe, sqlNot, sqlEq, sqlIsNull, sqlIsNotNull]
  | some s =>
    by_cases h : trimSpaces s = "" <;>
      simp [quarantineCond, goodCond, sqlAnd, sqlOr, sqlNe, sqlNot, sqlEq, sqlIsNull,
        sqlIsNotNull, h]

theorem quarantineCond_iff_spec (r : RawAppRow) :
    quarantineCond r.column12 = some true ↔ specQuarantine r := by
  unfold specQuarantine
  cases h : r.column12 with
  | none =>
    simp [quarantineCond, sqlAnd, sqlNe, sqlNot, sqlEq, sqlIsNotNull, h]
  | some s =>
    by_cases hs : trimSpaces s = "" <;>
      simp [quarantineCond, sqlAnd, sqlNe, sqlNot, sqlEq, sqlIsNotNull, h, hs]

/-- C1: the quarantine partition is exhaustive and disjoint: every raw
application row satisfies exactly one of the two WHERE clauses; a row is
quarantined iff its overflow column is non-null and non-blank after trimming;
the good rows are exactly the projections of the non-quarantined rows onto
the 12 named columns; and the quarantined count plus the good (processed)
count equals the total raw row count, also as reported by the quality
report. -/
theorem C1_quarantine_partition (rows : List RawAppRow) :
    ((raw_applications_bad rows).length + (raw_applications_good rows).length = rows.length)
    ∧ (∀ r : RawAppRow, quarantineCond r.column12 = some true ↔ ¬ goodCond r.column12 = some true)
    ∧ (∀ r : RawAppRow, quarantineCond r.column12 = some true ↔ specQuarantine r)
    ∧ (raw_applications_good rows =
        (rows.filter (fun r => decide (goodCond r.column12 = some true))).map projectGood)
    ∧ (∀ r : RawAppRow, projectGood r =
        { application_id := r.application_id,
          customer_email := r.customer_email,
          installer_partner_id := r.installer_partner_id,
          installation_type := r.installation_type,
          system_size_kwp := r.system_size_kwp,
          loan_amount_eur := r.loan_amount_eur,
          loan_term_months := r.loan_term_months,
          application_date := r.application_date,
          credit_score := r.credit_score,
          annual_income_eur := r.annual_income_eur,
          postal_code := r.postal_code,
          status := r.status })
    ∧ (∀ env lmsRows tsA tsL tsR,
        (data_quality_report env rows lmsRows tsA tsL tsR).quarantined_applications
          + (data_quality_report env rows lmsRows tsA tsL tsR).applications_processed
          = rows.length) := by
  have hpoint : ∀ r : RawAppRow,
      (decide (goodCond r.column12 = some true) : Bool)
        = !(decide (quarantineCond r.column12 = some true)) := by
    intro r
    have h := quarantine_good_compl r.column12
    by_cases hg : goodCond r.column12 = some true
    · have : ¬ quarantineCond r.column12 = some true := fun hq => (h.mp hq) hg
      simp [hg, this]
    · have : quarantineCond r.column12 = some true := h.mpr hg
      simp [hg, this]
  have hcount : (raw_applications_bad rows).length + (raw_applications_good rows).length
      = rows.length := by
    unfold raw_applications_bad raw_applications_good
    rw [List.length_map]
    rw [List.filter_congr (fun r _ => hpoint r)]
    exact length_filter_add_length_filter_not rows _
  refine ⟨hcount, fun r => quarantine_good_compl r.column12, quarantineCond_iff_spec, rfl,
    fun r => rfl, ?_⟩
  intro env lmsRows tsA tsL tsR
  have happ : (data_quality_report env rows lmsRows tsA tsL tsR).applications_processed
      = (raw_applications_good rows).length := by
    simp [data_quality_report, cleaned_applications]
  have hq : (data_quality_report env rows lmsRows tsA tsL tsR).quarantined_applications
      = (raw_applications_bad rows).length := rfl
  rw [happ, hq, hcount]

/-- Witness for C1 at a concrete two-row input (one quarantined row, one good
row). -/
def wQuarRow : RawAppRow :=
  { application_id := some "APP1", customer_email := none, installer_partner_id := none,
    installation_type := none, system_size_kwp := none, loan_amount_eur := none,
    loan_term_months := none, application_date := none, credit_score := none,
    annual_income_eur := none, postal_code := none, status := none,
    column12 := some "overflow" }

/-- A fully blank raw application row. -/
def blankAppRow : RawAppRow :=
  { application_id := none, customer_email := none, installer_partner_id := none,
    installation_type := none, system_size_kwp := none, loan_amount_eur := none,
    loan_term_months := none, application_date := none, credit_score := none,
    annual_income_eur := none, postal_code := none, status := none, column12 := none }

/-- A fully blank raw LMS row. -/
def blankLmsRow : RawLmsRow :=
  { loan_id := none, application_id := none, disbursement_date := none,
    current_balance_eur := none, days_past_due := none, payment_status := none,
    last_payment_date := none, next_payment_due := none }

theorem C1_quarantine_partition_witness :
    (raw_applications_bad [wQuarRow, blankAppRow]).length
      + (raw_applications_good [wQuarRow, blankAppRow]).length = 2
    ∧ (quarantineCond wQuarRow.column12 = some true ↔ specQuarantine wQuarRow) :=
  ⟨(C1_quarantine_partition [wQuarRow, blankAppRow]).1,
    (C1_quarantine_partition [wQuarRow, blankAppRow]).2.2.1 wQuarRow⟩

/-! ## Membership shapes of the cleaned tables -/

theorem mem_cleaned_applications {env : CastEnv} {rows : List RawAppRow} {ts : Int}
    {r : CleanedAppRow} :
    r ∈ cleaned_applications env rows ts ↔
      ∃ g, g ∈ raw_applications_good rows ∧
        r = cleanAppRow (app_dupes (raw_applications_good rows)) ts (typeAppRow env g) := by
  unfold cleaned_applications
  constructor
  · intro hr
    obtain ⟨t, ht, rfl⟩ := List.mem_map.mp hr
    obtain ⟨g, hg, rfl⟩ := List.mem_map.mp ht
    exact ⟨g, hg, rfl⟩
  · rintro ⟨g, hg, rfl⟩
    exact List.mem_map.mpr ⟨typeAppRow env g, List.mem_map.mpr ⟨g, hg, rfl⟩, rfl⟩

theorem mem_lms_cleaned {env : CastEnv} {rows : List RawLmsRow} {ts : Int}
    {r : CleanedLmsRow} :
    r ∈ lms_cleaned env rows ts ↔
      ∃ g, g ∈ rows ∧
        r = cleanLmsRow (lms_loan_id_dupes rows) (lms_app_id_dupes rows) ts (typeLmsRow env g) := by
  unfold lms_cleaned
  constructor
  · intro hr
    obtain ⟨t, ht, rfl⟩ := List.mem_map.mp hr
    obtain ⟨g, hg, rfl⟩ := List.mem_map.mp ht
    exact ⟨g, hg, rfl⟩
  · rintro ⟨g, hg, rfl⟩
    exact List.mem_map.mpr ⟨typeLmsRow env g, List.mem_map.mpr ⟨g, hg, rfl⟩, rfl⟩

theorem mem_loan_portfolio {env : CastEnv} {rows : List RawAppRow} {lmsRows : List RawLmsRow}
    {tsA tsL : Int} {today : Date} {p : PortfolioRow} :
    p ∈ loan_portfolio env rows lmsRows tsA tsL today ↔
      ∃ a, a ∈ cleaned_applications env rows tsA ∧
        p ∈ joinRowsFor (lms_cleaned env lmsRows tsL) today a := by
  unfold loan_portfolio
  exact List.mem_flatMap

theorem mem_joinRowsFor {lms : List CleanedLmsRow} {today : Date} {a : CleanedAppRow}
    {p : PortfolioRow} (hp : p ∈ joinRowsFor lms today a) :
    (lmsMatches lms a = [] ∧ p = portfolioRow today a none) ∨
      ∃ l, l ∈ lmsMatches lms a ∧ p = portfolioRow today a (some l) := by
  unfold joinRowsFor at hp
  cases h : lmsMatches lms a with
  | nil =>
    rw [h] at hp
    simp only [List.mem_singleton] at hp
    exact Or.inl ⟨rfl, hp⟩
  | cons x xs =>
    rw [h] at hp
    obtain ⟨l, hl, rfl⟩ := List.mem_map.mp hp
    exact Or.inr ⟨l, h ▸ hl, rfl⟩

/-! ## Risk category facts (claim C2) -/

theorem riskCategory_mem_six (cs : Option Int) :
    riskCategory cs ∈ (["Unknown", "Invalid", "Excellent", "Good", "Fair", "Poor"] :
      List String) := by
  cases cs with
  | none => simp [riskCategory]
  | some c =>
    simp only [riskCategory]
    split_ifs <;> simp

theorem riskCategory_invalid {c : Int} (h : c < 300 ∨ 850 < c) :
    riskCategory (some c) = "Invalid" := by
  simp only [riskCategory]
  rw [if_pos h]

theorem riskCategory_excellent {c : Int} (h : 750 ≤ c) (h850 : c ≤ 850) :
    riskCategory (some c) = "Excellent" := by
  simp only [riskCategory]
  rw [if_neg (by omega), if_pos h]

theorem riskCategory_good {c : Int} (h1 : 700 ≤ c) (h2 : c ≤ 749) :
    riskCategory (some c) = "Good" := by
  simp only [riskCategory]
  rw [if_neg (by omega), if_neg (by omega), if_pos ⟨h1, h2⟩]

theorem riskCategory_fair {c : Int} (h1 : 650 ≤ c) (h2 : c ≤ 699) :
    riskCategory (some c) = "Fair" := by
  simp only [riskCategory]
  rw [if_neg (by omega), if_neg (by omega), if_neg (by omega), if_pos ⟨h1, h2⟩]

theorem riskCategory_poor {c : Int} (h1 : 300 ≤ c) (h2 : c ≤ 649) :
    riskCategory (some c) = "Poor" := by
  simp only [riskCategory]
  rw [if_neg (by omega), if_neg (by omega), if_neg (by omega), if_neg (by omega)]

/-- C2: on every `cleaned_applications` row, `risk_category` is one of the six
documented values and is determined from the typed credit score by the
documented priority order; in particular the boundary scores 749/750, 699/700
and 649/650 land in the documented adjacent buckets. -/
theorem C2_risk_category_totality (env : CastEnv) (rows : List RawAppRow) (ts : Int)
    (r : CleanedAppRow) (hr : r ∈ cleaned_applications env rows ts) :
    r.risk_category = riskCategory r.typed.credit_score
    ∧ r.risk_category ∈ (["Unknown", "Invalid", "Excellent", "Good", "Fair", "Poor"] :
        List String)
    ∧ (r.typed.credit_score = none → r.risk_category = "Unknown")
    ∧ (∀ c : Int, r.typed.credit_score = some c →
        ((c < 300 ∨ 850 < c) → r.risk_category = "Invalid")
        ∧ (750 ≤ c → c ≤ 850 → r.risk_category = "Excellent")
        ∧ (700 ≤ c → c ≤ 749 → r.risk_category = "Good")
        ∧ (650 ≤ c → c ≤ 699 → r.risk_category = "Fair")
        ∧ (300 ≤ c → c ≤ 649 → r.risk_category = "Poor"))
    ∧ (r.typed.credit_score = some 749 → r.risk_category = "Good")
    ∧ (r.typed.credit_score = some 750 → r.risk_category = "Excellent")
    ∧ (r.typed.credit_score = some 699 → r.risk_category = "Fair")
    ∧ (r.typed.credit_score = some 700 → r.risk_category = "Good")
    ∧ (r.typed.credit_score = some 649 → r.risk_category = "Poor")
    ∧ (r.typed.credit_score = some 650 → r.risk_category = "Fair") := by
  obtain ⟨g, hg, rfl⟩ := mem_cleaned_applications.mp hr
  have hrisk : (cleanAppRow (app_dupes (raw_applications_good rows)) ts
      (typeAppRow env g)).risk_category = riskCategory (typeAppRow env g).credit_score := rfl
  have htyped : (cleanAppRow (app_dupes (raw_applications_good rows)) ts
      (typeAppRow env g)).typed = typeAppRow env g := rfl
  rw [htyped, hrisk]
  refine ⟨rfl, riskCategory_mem_six _, ?_, ?_, ?_, ?_, ?_, ?_, ?_, ?_⟩
  · intro h; rw [h]; rfl
  · intro c hc
    rw [hc]
    exact ⟨fun h => riskCategory_invalid h,
      fun h1 h2 => riskCategory_excellent h1 h2,
      fun h1 h2 => riskCategory_good h1 h2,
      fun h1 h2 => riskCategory_fair h1 h2,
      fun h1 h2 => riskCategory_poor h1 h2⟩
  · intro h; rw [h]; exact riskCategory_good (by omega) (by omega)
  · intro h; rw [h]; exact riskCategory_excellent (by omega) (by omega)
  · intro h; rw [h]; exact riskCategory_fair (by omega) (by omega)
  · intro h; rw [h]; exact riskCategory_good (by omega) (by omega)
  · intro h; rw [h]; exact riskCategory_poor (by omega) (by omega)
  · intro h; rw [h]; exact riskCategory_fair (by omega) (by omega)

/-- A concrete application row with credit score 720 for the C2 witness. -/
def wApp720 : RawAppRow :=
  { blankAppRow with application_id := some "APP2", credit_score := some "720" }

/-- The cleaned row the pipeline produces for `wApp720`. -/
def wCleaned720 : CleanedAppRow :=
  cleanAppRow (app_dupes (raw_applications_good [wApp720])) 0 (typeAppRow defaultEnv
    (projectGood wApp720))

theorem C2_risk_category_totality_witness : wCleaned720.risk_category = "Good" := by
  have hmem : wCleaned720 ∈ cleaned_applications defaultEnv [wApp720] 0 := by
    exact mem_cleaned_applications.mpr ⟨projectGood wApp720, by decide, rfl⟩
  have h := C2_risk_category_totality defaultEnv [wApp720] 0 wCleaned720 hmem
  exact (h.2.2.2.1 720 (by decide)).2.2.1 (by decide) (by decide)

/-! ## Delinquency bucket facts (claims C3, C10) -/

theorem delinquencyBucketLms_current : delinquencyBucketLms (some 0) = some "Current" := by
  simp [delinquencyBucketLms]

theorem delinquencyBucketLms_late {n : Int} (h1 : 1 ≤ n) (h2 : n ≤ 30) :
    delinquencyBucketLms (some n) = some "Late" := by
  simp only [delinquencyBucketLms]
  rw [if_neg (by omega), if_pos ⟨h1, h2⟩]

theorem delinquencyBucketLms_delinquent {n : Int} (h1 : 31 ≤ n) (h2 : n ≤ 90) :
    delinquencyBucketLms (some n) = some "Delinquent" := by
  simp only [delinquencyBucketLms]
  rw [if_neg (by omega), if_neg (by omega), if_pos ⟨h1, h2⟩]

theorem delinquencyBucketLms_default_gt90 {n : Int} (h : 90 < n) :
    delinquencyBucketLms (some n) = some "Default" := by
  simp only [delinquencyBucketLms]
  rw [if_neg (by omega), if_neg (by omega), if_neg (by omega)]

theorem delinquencyBucketLms_default_neg {n : Int} (h : n < 0) :
    delinquencyBucketLms (some n) = some "Default" := by
  simp only [delinquencyBucketLms]
  rw [if_neg (by omega), if_neg (by omega), if_neg (by omega)]

theorem delinquencyBucketPortfolio_eq_lms (d : Option Int) :
    delinquencyBucketPortfolio d = delinquencyBucketLms d := by
  cases d <;> rfl

/-- C3: on every `lms_cleaned` row, the derived `delinquency_bucket` follows
the documented mapping on the typed `days_past_due`: null on null, Current at
0, Late on 1-30, Delinquent on 31-90, Default above 90; in particular 30 is
Late, 31 and 90 are Delinquent and 91 is Default. -/
theorem C3_delinquency_bucket (env : CastEnv) (rows : List RawLmsRow) (ts : Int)
    (r : CleanedLmsRow) (hr : r ∈ lms_cleaned env rows ts) :
    r.delinquency_bucket = delinquencyBucketLms r.typed.days_past_due
    ∧ (r.typed.days_past_due = none → r.delinquency_bucket = none)
    ∧ (r.typed.days_past_due = some 0 → r.delinquency_bucket = some "Current")
    ∧ (∀ n : Int, r.typed.days_past_due = some n → 1 ≤ n → n ≤ 30 →
        r.delinquency_bucket = some "Late")
    ∧ (∀ n : Int, r.typed.days_past_due = some n → 31 ≤ n → n ≤ 90 →
        r.delinquency_bucket = some "Delinquent")
    ∧ (∀ n : Int, r.typed.days_past_due = some n → 90 < n →
        r.delinquency_bucket = some "Default")
    ∧ (r.typed.days_past_due = some 30 → r.delinquency_bucket = some "Late")
    ∧ (r.typed.days_past_due = some 31 → r.delinquency_bucket = some "Delinquent")
    ∧ (r.typed.days_past_due = some 90 → r.delinquency_bucket = some "Delinquent")
    ∧ (r.typed.days_past_due = some 91 → r.delinquency_bucket = some "Default") := by
  obtain ⟨g, hg, rfl⟩ := mem_lms_cleaned.mp hr
  have hb : (cleanLmsRow (lms_loan_id_dupes rows) (lms_app_id_dupes rows) ts
      (typeLmsRow env g)).delinquency_bucket
      = delinquencyBucketLms (typeLmsRow env g).days_past_due := rfl
  have ht : (cleanLmsRow (lms_loan_id_dupes rows) (lms_app_id_dupes rows) ts
      (typeLmsRow env g)).typed = typeLmsRow env g := rfl
  rw [ht, hb]
  refine ⟨rfl, ?_, ?_, ?_, ?_, ?_, ?_, ?_, ?_, ?_⟩
  · intro h; rw [h]; rfl
  · intro h; rw [h]; exact delinquencyBucketLms_current
  · intro n h h1 h2; rw [h]; exact delinquencyBucketLms_late h1 h2
  · intro n h h1 h2; rw [h]; exact delinquencyBucketLms_delinquent h1 h2
  · intro n h h1; rw [h]; exact delinquencyBucketLms_default_gt90 h1
  · intro h; rw [h]; exact delinquencyBucketLms_late (by omega) (by omega)
  · intro h; rw [h]; exact delinquencyBucketLms_delinquent (by omega) (by omega)
  · intro h; rw [h]; exact delinquencyBucketLms_delinquent (by omega) (by omega)
  · intro h; rw [h]; exact delinquencyBucketLms_default_gt90 (by omega)

/-- A concrete LMS row with 30 days past due for the C3 witness. -/
def wLms30 : RawLmsRow :=
  { blankLmsRow with
    loan_id := some "L1"
    application_id := some "APP3"
    days_past_due := some "30" }

/-- The cleaned row the pipeline produces for `wLms30`. -/
def wLmsCleaned30 : CleanedLmsRow :=
  cleanLmsRow (lms_loan_id_dupes [wLms30]) (lms_app_id_dupes [wLms30]) 0
    (typeLmsRow defaultEnv wLms30)

theorem C3_delinquency_bucket_witness : wLmsCleaned30.delinquency_bucket = some "Late" := by
  have hmem : wLmsCleaned30 ∈ lms_cleaned defaultEnv [wLms30] 0 :=
    mem_lms_cleaned.mpr ⟨wLms30, by decide, rfl⟩
  have h := C3_delinquency_bucket defaultEnv [wLms30] 0 wLmsCleaned30 hmem
  exact h.2.2.2.2.2.2.1 (by decide)

theorem flag_dpd_negative_eq (loanDupes appDupes : List String) (ts : Int) (t : TypedLmsRow) :
    (cleanLmsRow loanDupes appDupes ts t).flag_days_past_due_negative
      = sqlAnd (sqlIsNotNull t.days_past_due) (sqlLtInt t.days_past_due (some 0)) := rfl

/-- C10: a negative typed `days_past_due` falls into the catch-all CASE branch:
the `lms_cleaned` bucket is Default (not null, not an error value) while
`flag_days_past_due_negative` is true on the same row; the recomputed bucket
on `loan_portfolio` rows behaves identically. -/
theorem C10_negative_days_past_due (env : CastEnv) (rows : List RawAppRow)
    (lmsRows : List RawLmsRow) (tsA tsL : Int) (today : Date) :
    (∀ r ∈ lms_cleaned env lmsRows tsL, ∀ n : Int, r.typed.days_past_due = some n → n < 0 →
      r.delinquency_bucket = some "Default" ∧ r.flag_days_past_due_negative = some true)
    ∧ (∀ p ∈ loan_portfolio env rows lmsRows tsA tsL today, ∀ n : Int,
        p.days_past_due = some n → n < 0 →
        p.delinquency_bucket = some "Default" ∧ p.flag_days_past_due_negative = some true) := by
  constructor
  · intro r hr n hn hneg
    obtain ⟨g, hg, rfl⟩ := mem_lms_cleaned.mp hr
    have ht : (cleanLmsRow (lms_loan_id_dupes lmsRows) (lms_app_id_dupes lmsRows) tsL
        (typeLmsRow env g)).typed = typeLmsRow env g := rfl
    rw [ht] at hn
    constructor
    · show delinquencyBucketLms (typeLmsRow env g).days_past_due = some "Default"
      rw [hn]
      exact delinquencyBucketLms_default_neg hneg
    · rw [flag_dpd_negative_eq, hn]
      simp [sqlAnd, sqlIsNotNull, sqlLtInt, hneg]
  · intro p hp n hn hneg
    obtain ⟨a, _, hpj⟩ := mem_loan_portfolio.mp hp
    rcases mem_joinRowsFor hpj with ⟨_, rfl⟩ | ⟨l, hl, rfl⟩
    · simp [portfolioRow] at hn
    · have hldays : (portfolioRow today a (some l)).days_past_due = l.typed.days_past_due := rfl
      rw [hldays] at hn
      have hlmem : l ∈ lms_cleaned env lmsRows tsL := List.mem_filter.mp hl |>.1
      obtain ⟨g, hg, rfl⟩ := mem_lms_cleaned.mp hlmem
      have ht : (cleanLmsRow (lms_loan_id_dupes lmsRows) (lms_app_id_dupes lmsRows) tsL
          (typeLmsRow env g)).typed = typeLmsRow env g := rfl
      rw [ht] at hn
      constructor
      · show delinquencyBucketPortfolio (typeLmsRow env g).days_past_due = some "Default"
        rw [hn, delinquencyBucketPortfolio_eq_lms]
        exact delinquencyBucketLms_default_neg hneg
      · show (cleanLmsRow (lms_loan_id_dupes lmsRows) (lms_app_id_dupes lmsRows) tsL
            (typeLmsRow env g)).flag_days_past_due_negative = some true
        rw [flag_dpd_negative_eq, hn]
        simp [sqlAnd, sqlIsNotNull, sqlLtInt, hneg]

/-- A concrete LMS row with negative days past due for the C10 witness. -/
def wLmsNeg : RawLmsRow :=
  { blankLmsRow with
    loan_id := some "L2"
    application_id := some "APP4"
    days_past_due := some "-5" }

theorem C10_negative_days_past_due_witness :
    (cleanLmsRow (lms_loan_id_dupes [wLmsNeg]) (lms_app_id_dupes [wLmsNeg]) 0
        (typeLmsRow defaultEnv wLmsNeg)).delinquency_bucket = some "Default"
      ∧ (cleanLmsRow (lms_loan_id_dupes [wLmsNeg]) (lms_app_id_dupes [wLmsNeg]) 0
        (typeLmsRow defaultEnv wLmsNeg)).flag_days_past_due_negative = some true := by
  have h := (C10_negative_days_past_due defaultEnv [] [wLmsNeg] 0 0
      { year := 2026, month := 1, day := 1 }).1
  exact h _ (mem_lms_cleaned.mpr ⟨wLmsNeg, by decide, rfl⟩) (-5) (by decide) (by decide)

/-! ## Duplicate detection facts (claim C4) -/

theorem sqlIn_of_mem {α : Type} [DecidableEq α] {v : α} {s : List (Option α)}
    (h : some v ∈ s) : sqlIn (some v) s = some true := by
  simp [sqlIn, h]

theorem sqlIn_of_not_mem {α : Type} [DecidableEq α] {v : α} {s : List (Option α)}
    (h : some v ∉ s) (hn : none ∉ s) : sqlIn (some v) s = some false := by
  simp [sqlIn, h, hn]

theorem sqlIn_none_ne_true {α : Type} [DecidableEq α] (s : List (Option α)) :
    sqlIn (none : Option α) s ≠ some true := by
  simp only [sqlIn]
  split <;> simp

theorem mem_app_dupes {rows : List RawAppRow} {x : Option String} :
    x ∈ app_dupes (raw_applications_good rows) ↔ 2 ≤ (goodIds rows).count x := by
  unfold app_dupes goodIds
  constructor
  · intro h
    have := List.mem_filter.mp h
    have hlt := of_decide_eq_true this.2
    omega
  · intro h
    refine List.mem_filter.mpr ⟨List.mem_dedup.mpr ?_, decide_eq_true (by omega)⟩
    by_contra hx
    rw [← List.count_eq_zero] at hx
    omega

theorem flag_app_dup_eq (dupes : List (Option String)) (ts : Int) (t : TypedAppRow) :
    (cleanAppRow dupes ts t).flag_application_id_duplicate = sqlIn t.application_id dupes := rfl

/-- C4 counterexample: in a run whose two good rows both have a NULL
`application_id`, the id value appears twice in the good-row set, yet no
occurrence gets `flag_application_id_duplicate = true` — the SQL `IN`
comparison against the NULL duplicate key yields NULL, so the flag is NULL on
both rows, refuting the claim that every occurrence of a duplicated
(including null) id is flagged true. -/
theorem C4_duplicate_flag_counterexample :
    (goodIds [blankAppRow, blankAppRow]).count none = 2
    ∧ (cleaned_applications defaultEnv [blankAppRow, blankAppRow] 0).map
        (fun r => r.flag_application_id_duplicate) = [none, none]
    ∧ ¬ (∀ r ∈ cleaned_applications defaultEnv [blankAppRow, blankAppRow] 0,
          r.flag_application_id_duplicate = some true) := by
  decide

/-- C4 amended: duplicate detection is symmetric for non-null ids: every
occurrence of a non-null id with multiplicity at least two in the good-row
set is flagged true; a row with a non-null id of multiplicity one is flagged
false provided the null id is not itself duplicated (otherwise its flag is
NULL); and a row with a NULL id is never flagged true (its flag is NULL or
false). -/
theorem C4_duplicate_flag_amended (env : CastEnv) (rows : List RawAppRow) (ts : Int)
    (r : CleanedAppRow) (hr : r ∈ cleaned_applications env rows ts) :
    (∀ v : String, r.typed.application_id = some v → 2 ≤ (goodIds rows).count (some v) →
      r.flag_application_id_duplicate = some true)
    ∧ (∀ v : String, r.typed.application_id = some v → (goodIds rows).count (some v) ≤ 1 →
      (goodIds rows).count (none : Option String) ≤ 1 →
      r.flag_application_id_duplicate = some false)
    ∧ (r.typed.application_id = none → r.flag_application_id_duplicate ≠ some true) := by
  obtain ⟨g, hg, rfl⟩ := mem_cleaned_applications.mp hr
  have ht : (cleanAppRow (app_dupes (raw_applications_good rows)) ts
      (typeAppRow env g)).typed = typeAppRow env g := rfl
  have hid : (typeAppRow env g).application_id = g.application_id := rfl
  rw [ht, hid, flag_app_dup_eq]
  refine ⟨?_, ?_, ?_⟩
  · intro v hv hcnt
    rw [hid, hv]
    exact sqlIn_of_mem (mem_app_dupes.mpr hcnt)
  · intro v hv hcnt hnone
    rw [hid, hv]
    refine sqlIn_of_not_mem (fun hmem => ?_) (fun hmem => ?_)
    · have := mem_app_dupes.mp hmem; omega
    · have := mem_app_dupes.mp hmem; omega
  · intro hv
    rw [hid, hv]
    exact sqlIn_none_ne_true _

/-- A raw application row with a duplicated non-null id for the C4 witness. -/
def wDupRow : RawAppRow := { blankAppRow with application_id := some "APP9" }

theorem C4_duplicate_flag_amended_witness :
    (cleanAppRow (app_dupes (raw_applications_good [wDupRow, wDupRow])) 0
      (typeAppRow defaultEnv (projectGood wDupRow))).flag_application_id_duplicate
      = some true := by
  have h := C4_duplicate_flag_amended defaultEnv [wDupRow, wDupRow] 0 _
    (mem_cleaned_applications.mpr ⟨projectGood wDupRow, by decide, rfl⟩)
  exact h.1 "APP9" (by decide) (by decide)

/-! ## Portfolio join facts (claim C6) -/

theorem portfolioRow_app (today : Date) (a : CleanedAppRow) (ml : Option CleanedLmsRow) :
    (portfolioRow today a ml).app = a := by
  cases ml <;> rfl

theorem joinRowsFor_ne_nil (lms : List CleanedLmsRow) (today : Date) (a : CleanedAppRow) :
    joinRowsFor lms today a ≠ [] := by
  unfold joinRowsFor
  cases h : lmsMatches lms a <;> simp

/-- C6: the Portfolio Joiner is a left outer join on `application_id` driven
by the applications side, with no filtering by status: every cleaned
application row produces at least one portfolio row carrying it; an
application matching no cleaned LMS row produces exactly the NULL-padded row,
whose `loan_id`, `delinquency_bucket`, `months_since_disbursement` (and all
other LMS-origin columns) are null; and every portfolio row recomputes
`delinquency_bucket` from the joined `days_past_due` with the same bucket
rule as the LMS validator. -/
theorem C6_left_join (env : CastEnv) (rows : List RawAppRow) (lmsRows : List RawLmsRow)
    (tsA tsL : Int) (today : Date) :
    (∀ a ∈ cleaned_applications env rows tsA,
      ∃ p ∈ loan_portfolio env rows lmsRows tsA tsL today, p.app = a)
    ∧ (∀ a ∈ cleaned_applications env rows tsA,
        (∀ l ∈ lms_cleaned env lmsRows tsL,
          ¬ sqlEq a.typed.application_id l.typed.application_id = some true) →
        portfolioRow today a none ∈ loan_portfolio env rows lmsRows tsA tsL today
        ∧ (portfolioRow today a none).loan_id = none
        ∧ (portfolioRow today a none).delinquency_bucket = none
        ∧ (portfolioRow today a none).months_since_disbursement = none
        ∧ (portfolioRow today a none).lms_application_id = none
        ∧ (portfolioRow today a none).disbursement_date = none
        ∧ (portfolioRow today a none).days_past_due = none
        ∧ (portfolioRow today a none).payment_status = none
        ∧ (portfolioRow today a none).lms_processed_at = none)
    ∧ (∀ p ∈ loan_portfolio env rows lmsRows tsA tsL today,
        p.delinquency_bucket = delinquencyBucketPortfolio p.days_past_due)
    ∧ (∀ d : Option Int, delinquencyBucketPortfolio d = delinquencyBucketLms d) := by
  refine ⟨?_, ?_, ?_, delinquencyBucketPortfolio_eq_lms⟩
  · intro a ha
    cases h : joinRowsFor (lms_cleaned env lmsRows tsL) today a with
    | nil => exact absurd h (joinRowsFor_ne_nil _ _ _)
    | cons p ps =>
      refine ⟨p, mem_loan_portfolio.mpr ⟨a, ha, by rw [h]; exact List.mem_cons_self p ps⟩, ?_⟩
      have hp : p ∈ joinRowsFor (lms_cleaned env lmsRows tsL) today a := by
        rw [h]; exact List.mem_cons_self p ps
      rcases mem_joinRowsFor hp with ⟨_, rfl⟩ | ⟨l, _, rfl⟩
      · exact portfolioRow_app today a none
      · exact portfolioRow_app today a (some l)
  · intro a ha hnomatch
    have hempty : lmsMatches (lms_cleaned env lmsRows tsL) a = [] := by
      unfold lmsMatches
      rw [List.filter_eq_nil_iff]
      intro l hl
      simpa using hnomatch l hl
    have hmem : portfolioRow today a none ∈ joinRowsFor (lms_cleaned env lmsRows tsL) today a := by
      unfold joinRowsFor
      rw [hempty]
      exact List.mem_singleton.mpr rfl
    exact ⟨mem_loan_portfolio.mpr ⟨a, ha, hmem⟩, rfl, rfl, rfl, rfl, rfl, rfl, rfl, rfl⟩
  · intro p hp
    obtain ⟨a, _, hpj⟩ := mem_loan_portfolio.mp hp
    rcases mem_joinRowsFor hpj with ⟨_, rfl⟩ | ⟨l, _, rfl⟩ <;> rfl

/-- A raw application row with id APP5 (and no matching LMS feed row) for the
C6 witness. -/
def wApp5 : RawAppRow := { blankAppRow with application_id := some "APP5" }

/-- The cleaned row the pipeline produces for `wApp5`. -/
def wCleaned5 : CleanedAppRow :=
  cleanAppRow (app_dupes (raw_applications_good [wApp5])) 0
    (typeAppRow defaultEnv (projectGood wApp5))

/-- The run date used by concrete portfolio evaluations. -/
def wToday : Date := { year := 2026, month := 1, day := 1 }

theorem C6_left_join_witness :
    portfolioRow wToday wCleaned5 none ∈ loan_portfolio defaultEnv [wApp5] [] 0 0 wToday
    ∧ (portfolioRow wToday wCleaned5 none).loan_id = none
    ∧ (portfolioRow wToday wCleaned5 none).delinquency_bucket = none
    ∧ (portfolioRow wToday wCleaned5 none).months_since_disbursement = none := by
  have h := (C6_left_join defaultEnv [wApp5] [] 0 0 wToday).2.1 wCleaned5
    (mem_cleaned_applications.mpr ⟨projectGood wApp5, by decide, rfl⟩)
    (by intro l hl; simp [lms_cleaned] at hl)
  exact ⟨h.1, h.2.1, h.2.2.1, h.2.2.2.1⟩

/-! ## Processing timestamp (claim C7) -/

/-- C7: the `processed_at` stamps are not one shared UTC value computed at run
start: each CREATE TABLE statement evaluates its own
`CURRENT_TIMESTAMP AT TIME ZONE Europe/Berlin`, so in a run whose
applications statement executes at instant 0 and whose LMS statement executes
one second later the two cleaned tables carry different timestamps, and the
rendering zone is Europe/Berlin, not UTC.  (The UTC run-start value the
program computes on line 33 is never used.) -/
theorem C7_processed_at_divergence :
    (cleaned_applications defaultEnv [blankAppRow] 0).map (fun r => r.processed_at)
      = [{ instant := 0, zone := "Europe/Berlin" }]
    ∧ (lms_cleaned defaultEnv [blankLmsRow] 1000000).map (fun r => r.processed_at)
      = [{ instant := 1000000, zone := "Europe/Berlin" }]
    ∧ ({ instant := 0, zone := "Europe/Berlin" } : SqlTimestamp)
        ≠ { instant := 1000000, zone := "Europe/Berlin" }
    ∧ ∀ t : Int, (mkProcessedAt t).zone ≠ "UTC" := by
  refine ⟨by decide, by decide, by decide, fun t => ?_⟩
  simp [mkProcessedAt]

/-! ## Email normalization (claim C8) -/

/-- A raw application row whose email has two whitespace runs. -/
def wApp8 : RawAppRow := { blankAppRow with customer_email := some "A B C" }

/-- C8 counterexample: the normalization replaces only the first whitespace
run — on input with two runs the cleaned email still contains whitespace,
refuting the claim that the cleaned `customer_email` contains no whitespace
character anywhere. -/
theorem C8_email_counterexample :
    (cleaned_applications defaultEnv [wApp8] 0).map (fun r => r.typed.customer_email)
      = [some "ab c"]
    ∧ hasWs "ab c" = true := by
  decide

theorem toNat_ofNat_valid (n : Nat) (h : n.isValidChar) : (Char.ofNat n).toNat = n := by
  unfold Char.ofNat
  rw [dif_pos h]
  rfl

theorem isWs_toLower (c : Char) : isWs c.toLower = isWs c := by
  simp only [Char.toLower]
  split
  case isTrue h =>
    have hv : (c.toNat + 32).isValidChar := Or.inl (by omega)
    have hL : isWs (Char.ofNat (c.toNat + 32)) = false := by
      simp only [isWs, decide_eq_false_iff_not]
      rw [toNat_ofNat_valid _ hv]
      omega
    have hR : isWs c = false := by
      simp only [isWs, decide_eq_false_iff_not]
      omega
    rw [hL, hR]
  case isFalse h => rfl

theorem dropWhile_append_all_ws (b c : List Char) (hb : ∀ x ∈ b, isWs x = true) :
    (b ++ c).dropWhile isWs = c.dropWhile isWs := by
  induction b with
  | nil => rfl
  | cons b0 bs ih =>
    simp only [List.cons_append, List.dropWhile_cons, hb b0 (List.mem_cons_self b0 bs)]
    exact ih (fun x hx => hb x (List.mem_cons_of_mem b0 hx))

theorem dropWhile_no_ws (c : List Char) (hc : ∀ x ∈ c, isWs x = false) :
    c.dropWhile isWs = c := by
  cases c with
  | nil => rfl
  | cons c0 cs => simp [List.dropWhile_cons, hc c0 (List.mem_cons_self c0 cs)]

theorem stripFirstWsRun_no_ws_input (l : List Char) (hl : ∀ x ∈ l, isWs x = false) :
    stripFirstWsRun l = l := by
  induction l with
  | nil => rfl
  | cons a as ih =>
    simp only [stripFirstWsRun, hl a (List.mem_cons_self a as)]
    simp only [Bool.false_eq_true, if_false]
    rw [ih (fun x hx => hl x (List.mem_cons_of_mem a hx))]

theorem stripFirstWsRun_single_run (a b c : List Char)
    (ha : ∀ x ∈ a, isWs x = false) (hb : ∀ x ∈ b, isWs x = true)
    (hc : ∀ x ∈ c, isWs x = false) :
    ∀ x ∈ stripFirstWsRun (a ++ b ++ c), isWs x = false := by
  induction a with
  | nil =>
    cases b with
    | nil =>
      simp only [List.nil_append]
      rw [stripFirstWsRun_no_ws_input c hc]
      exact hc
    | cons b0 bs =>
      simp only [List.nil_append, List.cons_append, stripFirstWsRun,
        hb b0 (List.mem_cons_self b0 bs), if_true]
      rw [List.append_eq]
      rw [dropWhile_append_all_ws bs c (fun x hx => hb x (List.mem_cons_of_mem b0 hx)),
        dropWhile_no_ws c hc]
      exact hc
  | cons a0 as ih =>
    simp only [List.cons_append, stripFirstWsRun, ha a0 (List.mem_cons_self a0 as),
      Bool.false_eq_true, if_false]
    intro x hx
    rcases List.mem_cons.mp hx with rfl | hx
    · exact ha x (List.mem_cons_self x as)
    · exact ih (fun y hy => ha y (List.mem_cons_of_mem a0 hy)) x hx

/-- C8 amended: the pipeline applies `normalizeEmail` (lowercase, then remove
only the first maximal whitespace run) to every good row's email; the cleaned
email is therefore whitespace-free whenever the input's whitespace forms at
most one contiguous run, but an input with two whitespace runs keeps its
later whitespace. -/
theorem C8_email_normalization_amended :
    (∀ (env : CastEnv) (rows : List RawAppRow) (ts : Int),
      ∀ r ∈ cleaned_applications env rows ts,
        ∃ g ∈ raw_applications_good rows,
          r.typed.customer_email = g.customer_email.map normalizeEmail)
    ∧ (∀ (s : String) (a b c : List Char), s.data = a ++ b ++ c →
        (∀ x ∈ a, isWs x = false) → (∀ x ∈ b, isWs x = true) → (∀ x ∈ c, isWs x = false) →
        ∀ x ∈ (normalizeEmail s).data, isWs x = false)
    ∧ hasWs (normalizeEmail "a b c") = true := by
  refine ⟨?_, ?_, by decide⟩
  · intro env rows ts r hr
    obtain ⟨g, hg, rfl⟩ := mem_cleaned_applications.mp hr
    exact ⟨g, hg, rfl⟩
  · intro s a b c hs ha hb hc
    have hdata : (normalizeEmail s).data
        = stripFirstWsRun (a.map Char.toLower ++ b.map Char.toLower ++ c.map Char.toLower) := by
      show stripFirstWsRun (s.data.map Char.toLower) = _
      rw [hs, List.map_append, List.map_append]
    rw [hdata]
    refine stripFirstWsRun_single_run _ _ _ ?_ ?_ ?_
    · intro x hx
      obtain ⟨y, hy, rfl⟩ := List.mem_map.mp hx
      rw [isWs_toLower]
      exact ha y hy
    · intro x hx
      obtain ⟨y, hy, rfl⟩ := List.mem_map.mp hx
      rw [isWs_toLower]
      exact hb y hy
    · intro x hx
      obtain ⟨y, hy, rfl⟩ := List.mem_map.mp hx
      rw [isWs_toLower]
      exact hc y hy

theorem C8_email_normalization_amended_witness : hasWs (normalizeEmail "ab cd") = false := by
  have h := C8_email_normalization_amended.2.1 "ab cd" ['a', 'b'] [' '] ['c', 'd']
    (by decide) (by decide) (by decide) (by decide)
  refine List.any_eq_false.mpr (fun x hx => ?_)
  rw [h x hx]
  simp

/-! ## Months since disbursement (claim C9) -/

/-- A raw application row matched by the C9 LMS row. -/
def wApp9 : RawAppRow := { blankAppRow with application_id := some "APP7" }

/-- An LMS row disbursed on the last day of January 2023. -/
def wLms9 : RawLmsRow :=
  { blankLmsRow with
    loan_id := some "L9"
    application_id := some "APP7"
    disbursement_date := some "2023-01-31" }

/-- The first of February 2023 as the processing date. -/
def wFeb1 : Date := { year := 2023, month := 2, day := 1 }

/-- C9 counterexample: one day after a disbursement on 2023-01-31 the
portfolio reports `months_since_disbursement = 1` (one month boundary
crossed) although zero complete months have elapsed, refuting the claim that
the value is the number of complete months elapsed. -/
theorem C9_months_counterexample :
    (loan_portfolio defaultEnv [wApp9] [wLms9] 0 0 wFeb1).map
      (fun p => p.months_since_disbursement) = [some 1]
    ∧ wholeMonthSpan { year := 2023, month := 1, day := 31 } wFeb1 = 0
    ∧ ¬ ((loan_portfolio defaultEnv [wApp9] [wLms9] 0 0 wFeb1).map
        (fun p => p.months_since_disbursement)
        = [some (wholeMonthSpan { year := 2023, month := 1, day := 31 } wFeb1)]) := by
  decide

/-- C9 amended: `months_since_disbursement` is null exactly when
`disbursement_date` is null, and otherwise equals
`date_diff(month-part, disbursement_date, CURRENT_DATE)` — the number of
calendar-month boundaries crossed, which exceeds the complete-month span by
one whenever the day-of-month of the current date is smaller than that of
the disbursement date. -/
theorem C9_months_amended (env : CastEnv) (rows : List RawAppRow) (lmsRows : List RawLmsRow)
    (tsA tsL : Int) (today : Date) (p : PortfolioRow)
    (hp : p ∈ loan_portfolio env rows lmsRows tsA tsL today) :
    (p.disbursement_date = none → p.months_since_disbursement = none)
    ∧ (∀ d : Date, p.disbursement_date = some d →
        p.months_since_disbursement = some (dateDiffMonth d today))
    ∧ (∀ d : Date, p.disbursement_date = some d →
        p.months_since_disbursement
          = some (wholeMonthSpan d today + (if today.day < d.day then 1 else 0))) := by
  have hkey : (p.disbursement_date = none → p.months_since_disbursement = none)
      ∧ (∀ d : Date, p.disbursement_date = some d →
          p.months_since_disbursement = some (dateDiffMonth d today)) := by
    obtain ⟨a, _, hpj⟩ := mem_loan_portfolio.mp hp
    rcases mem_joinRowsFor hpj with ⟨_, rfl⟩ | ⟨l, _, rfl⟩
    · exact ⟨fun _ => rfl, fun d hd => by simp [portfolioRow] at hd⟩
    · constructor
      · intro hd
        have : (portfolioRow today a (some l)).months_since_disbursement
            = monthsSinceDisbursement l.typed.disbursement_date today := rfl
        rw [this]
        have hld : l.typed.disbursement_date = none := hd
        rw [hld]
        rfl
      · intro d hd
        have : (portfolioRow today a (some l)).months_since_disbursement
            = monthsSinceDisbursement l.typed.disbursement_date today := rfl
        rw [this]
        have hld : l.typed.disbursement_date = some d := hd
        rw [hld]
        rfl
  refine ⟨hkey.1, hkey.2, ?_⟩
  intro d hd
  rw [hkey.2 d hd]
  have : wholeMonthSpan d today + (if today.day < d.day then 1 else 0)
      = dateDiffMonth d today := by
    simp only [wholeMonthSpan, dateDiffMonth]
    split_ifs <;> ring
  rw [this]

theorem C9_months_amended_witness :
    ((loan_portfolio defaultEnv [wApp9] [wLms9] 0 0 wFeb1).head
        (by decide)).months_since_disbursement = some 1 := by
  have h := C9_months_amended defaultEnv [wApp9] [wLms9] 0 0 wFeb1 _
    (List.head_mem (by decide))
  rw [h.2.1 { year := 2023, month := 1, day := 31 } (by decide)]
  decide

/-! ## Quality report facts (claim C5) -/

/-- Spec wording of a counter being right: a null counter forces a zero true
count, and a non-null counter equals the true count. -/
def counterOk {α : Type} (c : Option Int) (table : List α) (fl : α → Option Bool) : Prop :=
  (c = none → flagTrueCount table fl = 0)
  ∧ ∀ k : Int, c = some k → k = (flagTrueCount table fl : Int)

theorem beq_some_true_eq_decide (x : Option Bool) :
    (x == some true) = decide (x = some true) := by
  cases x with
  | none => rfl
  | some b => cases b <;> rfl

theorem count_true_filterMap (L : List (Option Bool)) :
    (L.filterMap id).count true = L.count (some true) := by
  induction L with
  | nil => rfl
  | cons x L ih =>
    cases x with
    | none => simpa [List.filterMap_cons, List.count_cons] using ih
    | some b => cases b <;> simp [List.filterMap_cons, List.count_cons, ih]

theorem count_map_flagTrueCount {α : Type} (table : List α) (fl : α → Option Bool) :
    (table.map fl).count (some true) = flagTrueCount table fl := by
  unfold flagTrueCount
  induction table with
  | nil => rfl
  | cons r t ih =>
    simp only [List.map_cons, List.count_cons, List.filter_cons]
    by_cases h : fl r = some true
    · simp [h, ih]
    · simp [h, beq_some_true_eq_decide, ih]

theorem sqlSumBool_counterOk {α : Type} (table : List α) (fl : α → Option Bool) :
    counterOk (sqlSumBool (table.map fl)) table fl := by
  unfold counterOk
  by_cases hempty : ((table.map fl).filterMap id).isEmpty
  · have hs : sqlSumBool (table.map fl) = none := by
      unfold sqlSumBool
      rw [if_pos hempty]
    have hnil : (table.map fl).filterMap id = [] := by
      simpa [List.isEmpty_iff] using hempty
    have hcnt : flagTrueCount table fl = 0 := by
      rw [← count_map_flagTrueCount, ← count_true_filterMap, hnil]
      rfl
    rw [hs]
    exact ⟨fun _ => hcnt, fun k hk => by cases hk⟩
  · have hs : sqlSumBool (table.map fl)
        = some ((((table.map fl).filterMap id).count true : Nat) : Int) := by
      unfold sqlSumBool
      rw [if_neg hempty]
    rw [hs]
    refine ⟨fun h => Option.noConfusion h, fun k hk => ?_⟩
    injection hk with hk
    rw [← hk, count_true_filterMap, count_map_flagTrueCount]

theorem appAnyFlag_eq_true_iff (r : CleanedAppRow) :
    appAnyFlag r = some true ↔ appHasTrueFlag r := by
  unfold appAnyFlag appHasTrueFlag
  simp only [sqlOr_eq_true_iff]
  tauto

theorem lmsAnyFlag_eq_true_iff (r : CleanedLmsRow) :
    lmsAnyFlag r = some true ↔ lmsHasTrueFlag r := by
  unfold lmsAnyFlag lmsHasTrueFlag
  simp only [sqlOr_eq_true_iff]
  tauto

theorem lexLeChars_total (a b : List Char) : lexLeChars a b = true ∨ lexLeChars b a = true := by
  induction a generalizing b with
  | nil => exact Or.inl rfl
  | cons x xs ih =>
    cases b with
    | nil => exact Or.inr rfl
    | cons y ys =>
      by_cases hxy : x.toNat < y.toNat
      · exact Or.inl (by simp [lexLeChars, hxy])
      · by_cases hyx : y.toNat < x.toNat
        · exact Or.inr (by simp [lexLeChars, hyx])
        · rcases ih ys with h | h
          · exact Or.inl (by simp [lexLeChars, hxy, hyx, h])
          · exact Or.inr (by simp [lexLeChars, hxy, hyx, h])

theorem lexLeChars_trans (a b c : List Char) (h1 : lexLeChars a b = true)
    (h2 : lexLeChars b c = true) : lexLeChars a c = true := by
  induction a generalizing b c with
  | nil => rfl
  | cons x xs ih =>
    cases b with
    | nil => simp [lexLeChars] at h1
    | cons y ys =>
      cases c with
      | nil => simp [lexLeChars] at h2
      | cons z zs =>
        simp only [lexLeChars] at h1 h2 ⊢
        have hxy_le : x.toNat ≤ y.toNat := by
          by_contra hlt
          rw [if_neg (by omega), if_pos (by omega)] at h1
          simp at h1
        have hyz_le : y.toNat ≤ z.toNat := by
          by_contra hlt
          rw [if_neg (by omega), if_pos (by omega)] at h2
          simp at h2
        by_cases hxz : x.toNat < z.toNat
        · rw [if_pos hxz]
        · rw [if_neg hxz, if_neg (by omega)]
          rw [if_neg (by omega : ¬ x.toNat < y.toNat),
            if_neg (by omega : ¬ y.toNat < x.toNat)] at h1
          rw [if_neg (by omega : ¬ y.toNat < z.toNat),
            if_neg (by omega : ¬ z.toNat < y.toNat)] at h2
          exact ih ys zs h1 h2

theorem optStrLe_total (a b : Option String) : optStrLe a b = true ∨ optStrLe b a = true := by
  cases a with
  | none => cases b <;> simp [optStrLe]
  | some x =>
    cases b with
    | none => simp [optStrLe]
    | some y => exact lexLeChars_total x.data y.data

theorem optStrLe_trans (a b c : Option String) (h1 : optStrLe a b = true)
    (h2 : optStrLe b c = true) : optStrLe a c = true := by
  cases a with
  | none =>
    cases b with
    | none => exact h2
    | some y => cases c <;> simp [optStrLe] at h1 ⊢
  | some x =>
    cases b with
    | none => cases c <;> simp [optStrLe] at h2 ⊢
    | some y =>
      cases c with
      | none => simp [optStrLe]
      | some z => exact lexLeChars_trans x.data y.data z.data h1 h2

instance : IsTotal (Option String) idOrder := ⟨optStrLe_total⟩

instance : IsTrans (Option String) idOrder := ⟨optStrLe_trans⟩

theorem sortIds_perm (l : List (Option String)) : List.Perm (sortIds l) l :=
  List.perm_insertionSort idOrder l

theorem mem_sortIds {x : Option String} {l : List (Option String)} :
    x ∈ sortIds l ↔ x ∈ l :=
  (sortIds_perm l).mem_iff

theorem sortIds_sorted (l : List (Option String)) : (sortIds l).Sorted idOrder :=
  List.sorted_insertionSort idOrder l

theorem mem_problematic_ids {apps : List CleanedAppRow} {lms : List CleanedLmsRow}
    {x : Option String} :
    x ∈ problematic_ids apps lms ↔
      (∃ r ∈ apps, r.typed.application_id = x ∧ appHasTrueFlag r)
      ∨ (∃ r ∈ lms, r.typed.application_id = x ∧ lmsHasTrueFlag r) := by
  unfold problematic_ids
  rw [List.mem_dedup, List.mem_append, List.mem_dedup, List.mem_dedup]
  simp only [List.mem_map, List.mem_filter, decide_eq_true_eq, appAnyFlag_eq_true_iff,
    lmsAnyFlag_eq_true_iff]
  constructor
  · rintro (⟨r, ⟨hr, hf⟩, rfl⟩ | ⟨r, ⟨hr, hf⟩, rfl⟩)
    · exact Or.inl ⟨r, hr, rfl, hf⟩
    · exact Or.inr ⟨r, hr, rfl, hf⟩
  · rintro (⟨r, hr, rfl, hf⟩ | ⟨r, hr, rfl, hf⟩)
    · exact Or.inl ⟨r, ⟨hr, hf⟩, rfl⟩
    · exact Or.inr ⟨r, ⟨hr, hf⟩, rfl⟩

/-- C5 counterexample: on a run with empty input feeds the per-rule counters
are NULL (SQL SUM over zero rows), not 0, and `problematic_application_ids`
is NULL (array_agg over zero rows), not an empty list — refuting the claim
that every counter equals the number of flagged rows and that the id list
always equals the (possibly empty) sorted union. -/
theorem C5_report_counterexample :
    (data_quality_report defaultEnv [] [] 0 0 0).app_application_id_null = none
    ∧ flagTrueCount (cleaned_applications defaultEnv [] 0)
        (fun r => r.flag_application_id_null) = 0
    ∧ (data_quality_report defaultEnv [] [] 0 0 0).app_application_id_null
        ≠ some ((flagTrueCount (cleaned_applications defaultEnv [] 0)
            (fun r => r.flag_application_id_null) : Nat) : Int)
    ∧ (data_quality_report defaultEnv [] [] 0 0 0).problematic_application_ids = none := by
  decide

/-- C5 amended: every non-null per-rule counter in the Quality Report equals
the number of rows of the corresponding cleaned table on which that flag is
true, and a counter is null only when no row has a non-null value for the
flag (in particular the true count is then zero); an id is in
`problematic_application_ids` iff some cleaned application row or some
cleaned LMS row carries it with at least one true flag, and the reported
list, when present, is sorted ascending (NULLS LAST) without duplicates
(when no row is flagged the list is null rather than empty). -/
theorem C5_report_amended (env : CastEnv) (rows : List RawAppRow) (lmsRows : List RawLmsRow)
    (tsA tsL tsR : Int) (rep : QualityReport) (apps : List CleanedAppRow)
    (lms : List CleanedLmsRow)
    (hrep : rep = data_quality_report env rows lmsRows tsA tsL tsR)
    (happs : apps = cleaned_applications env rows tsA)
    (hlms : lms = lms_cleaned env lmsRows tsL) :
    counterOk rep.app_application_id_null apps (fun r => r.flag_application_id_null)
    ∧ counterOk rep.app_application_id_duplicate apps
        (fun r => r.flag_application_id_duplicate)
    ∧ counterOk rep.app_loan_amount_non_positive apps
        (fun r => r.flag_loan_amount_non_positive)
    ∧ counterOk rep.app_credit_score_missing apps (fun r => r.flag_credit_score_missing)
    ∧ counterOk rep.app_credit_score_out_of_range apps
        (fun r => r.flag_credit_score_out_of_range)
    ∧ counterOk rep.app_postal_code_invalid apps (fun r => r.flag_postal_code_invalid)
    ∧ counterOk rep.app_installation_type_invalid apps
        (fun r => r.flag_installation_type_invalid)
    ∧ counterOk rep.app_system_size_invalid apps (fun r => r.flag_system_size_invalid)
    ∧ counterOk rep.app_system_size_present_for_heat_pump apps
        (fun r => r.flag_system_size_present_for_heat_pump)
    ∧ counterOk rep.lms_loan_id_null lms (fun r => r.flag_loan_id_null)
    ∧ counterOk rep.lms_application_id_null lms (fun r => r.flag_application_id_null)
    ∧ counterOk rep.lms_application_id_invalid_format lms
        (fun r => r.flag_application_id_invalid_format)
    ∧ counterOk rep.lms_loan_id_duplicate lms (fun r => r.flag_loan_id_duplicate)
    ∧ counterOk rep.lms_application_id_duplicate lms
        (fun r => r.flag_application_id_duplicate)
    ∧ counterOk rep.lms_current_balance_negative lms
        (fun r => r.flag_current_balance_negative)
    ∧ counterOk rep.lms_days_past_due_negative lms (fun r => r.flag_days_past_due_negative)
    ∧ counterOk rep.lms_last_payment_before_disbursement lms
        (fun r => r.flag_last_payment_before_disbursement)
    ∧ counterOk rep.lms_next_due_before_disbursement lms
        (fun r => r.flag_next_due_before_disbursement)
    ∧ counterOk rep.lms_last_payment_after_next_due lms
        (fun r => r.flag_last_payment_after_next_due)
    ∧ (∀ x : Option String,
        (∃ l, rep.problematic_application_ids = some l ∧ x ∈ l)
          ↔ ((∃ r ∈ apps, r.typed.application_id = x ∧ appHasTrueFlag r)
            ∨ (∃ r ∈ lms, r.typed.application_id = x ∧ lmsHasTrueFlag r)))
    ∧ (∀ l, rep.problematic_application_ids = some l → l.Sorted idOrder ∧ l.Nodup) := by
  subst hrep happs hlms
  have hprob : (data_quality_report env rows lmsRows tsA tsL tsR).problematic_application_ids
      = if (problematic_ids (cleaned_applications env rows tsA)
            (lms_cleaned env lmsRows tsL)).isEmpty then none
        else some (sortIds (problematic_ids (cleaned_applications env rows tsA)
            (lms_cleaned env lmsRows tsL))) := rfl
  refine ⟨sqlSumBool_counterOk _ _, sqlSumBool_counterOk _ _, sqlSumBool_counterOk _ _,
    sqlSumBool_counterOk _ _, sqlSumBool_counterOk _ _, sqlSumBool_counterOk _ _,
    sqlSumBool_counterOk _ _, sqlSumBool_counterOk _ _, sqlSumBool_counterOk _ _,
    sqlSumBool_counterOk _ _, sqlSumBool_counterOk _ _, sqlSumBool_counterOk _ _,
    sqlSumBool_counterOk _ _, sqlSumBool_counterOk _ _, sqlSumBool_counterOk _ _,
    sqlSumBool_counterOk _ _, sqlSumBool_counterOk _ _, sqlSumBool_counterOk _ _,
    sqlSumBool_counterOk _ _, ?_, ?_⟩
  · intro x
    rw [hprob]
    by_cases he : (problematic_ids (cleaned_applications env rows tsA)
        (lms_cleaned env lmsRows tsL)).isEmpty
    · rw [if_pos he]
      have hnil : problematic_ids (cleaned_applications env rows tsA)
          (lms_cleaned env lmsRows tsL) = [] := List.isEmpty_iff.mp he
      constructor
      · rintro ⟨l, hl, _⟩
        exact Option.noConfusion hl
      · intro hr
        have hx := mem_problematic_ids.mpr hr
        rw [hnil] at hx
        exact absurd hx (List.not_mem_nil x)
    · rw [if_neg he]
      constructor
      · rintro ⟨l, hl, hx⟩
        injection hl with hl
        subst hl
        exact mem_problematic_ids.mp (mem_sortIds.mp hx)
      · intro hr
        exact ⟨_, rfl, mem_sortIds.mpr (mem_problematic_ids.mpr hr)⟩
  · intro l hl
    rw [hprob] at hl
    by_cases he : (problematic_ids (cleaned_applications env rows tsA)
        (lms_cleaned env lmsRows tsL)).isEmpty
    · rw [if_pos he] at hl
      exact Option.noConfusion hl
    · rw [if_neg he] at hl
      injection hl with hl
      subst hl
      exact ⟨sortIds_sorted _, ((sortIds_perm _).nodup_iff).mpr (List.nodup_dedup _)⟩

theorem C5_report_amended_witness :
    (1 : Int) = ((flagTrueCount (cleaned_applications defaultEnv [blankAppRow] 0)
      (fun r => r.flag_application_id_null) : Nat) : Int) := by
  have h := C5_report_amended defaultEnv [blankAppRow] [] 0 0 0 _ _ _ rfl rfl rfl
  exact h.1.2 1 (by decide)

end Pipeline
